import Mathlib

/-!
Shallow embedding of the footron-web-build pipeline
(src/footron_web_build/build.py and src/footron_web_build/__main__.py).

Pure computations (config loading, color arithmetic, generated-module text,
ignore-pattern matching) are translated directly as Lean functions.  The
filesystem-facing parts are embedded as explicit state passing: an
`ExpDir` records what the filesystem holds at one candidate experience
directory, `FsEntry` is a directory tree for the staging copy, and
`FsState` plus a per-stage success oracle drive the `build()` state
machine, with the `with BuildPath(...)` scope modelled as
enter-body-exit where exit runs on every outcome (the Python context
manager protocol).  External collaborators are parameters: `hexOfHsl`
stands for the HSL-to-RGB-to-hex conversion (`rgb`/`rgb_to_hex` from
`color_utils`), `ExpDir.wideDecodes` stands for `colorgram.extract`
(`none` meaning the image cannot be decoded), and the stage oracle stands
for the fallible filesystem/subprocess work of each pipeline stage.
Python floats are idealized as exact rationals.
-/

namespace Footron

/-- Value in a parsed JSON/TOML config (the generic key-value structure
that `json.load`/`tomli.load` produce). -/
inductive JsonValue where
  | null
  | bool (b : Bool)
  | num (n : Int)
  | str (s : String)
deriving DecidableEq, Repr

/-- A parsed config file: a key-value mapping (Python dict, keys unique). -/
abbrev Config := List (String × JsonValue)

/-- Python `config[k]` lookup (as an Option: `none` is a KeyError /
absent key). -/
def cfg_get (config : Config) (k : String) : Option JsonValue :=
  (config.find? (fun p => p.1 == k)).map (fun p => p.2)

/-- Python truthiness (`bool(v)`) of a config value. -/
def truthy : JsonValue → Bool
  | .null => false
  | .bool b => b
  | .num n => n != 0
  | .str s => s != ""

/-- Python f-string rendering of a config value (`f"{v}"`). -/
def pyStr : JsonValue → String
  | .null => "None"
  | .bool true => "True"
  | .bool false => "False"
  | .num n => toString n
  | .str s => s

/-- Python `x % 1` for a (nonnegative-divisor) float, idealized over ℚ:
the representative of x modulo 1 in [0, 1). -/
def fmod1 (x : ℚ) : ℚ := x - ⌊x⌋

/-- The three derived HSL triples of `Experience._calculate_colors`
(build.py lines 97-110), given the base HSL with channels already
normalized to [0,1] (the `l / 255` comprehension of lines 93-96 is done
by the caller).  Returns (primary, secondary_light, secondary_dark),
the order in which `ComputedColors` is filled on line 111.  The incoming
lightness is discarded by line 97, which forces the base lightness
to 0.35. -/
def color_triples (h s l : ℚ) : (ℚ × ℚ × ℚ) × (ℚ × ℚ × ℚ) × (ℚ × ℚ × ℚ) :=
  -- line 97: base_color = (base_color[0], min(base_color[1], 0.74), 0.35)
  let base : ℚ × ℚ × ℚ := (h, min s 0.74, 0.35)
  -- lines 98-106: secondary_dark
  let secondary_dark : ℚ × ℚ × ℚ :=
    (fmod1 (base.1 + 0.1), max (base.2.1 - 0.15) 0, base.2.2 + 0.1)
  -- lines 107-109: secondary_light
  let secondary_light : ℚ × ℚ × ℚ :=
    (fmod1 (base.1 + 0.18), min (base.2.1 * 1.5) 0.9, 0.94)
  -- line 110: base_color (the primary) re-clamps saturation and re-forces lightness
  let primary : ℚ × ℚ × ℚ := (base.1, min base.2.1 0.74, 0.35)
  (primary, secondary_light, secondary_dark)

/-- The `ComputedColors` dataclass (build.py lines 129-133). -/
structure ComputedColors where
  primary : String
  secondary_light : String
  secondary_dark : String
deriving DecidableEq, Repr

/-- Body of `Experience._calculate_colors` (build.py lines 91-111):
normalize the extracted dominant color from [0,255] channels, derive the
three HSL triples, convert each through the external `rgb`/`rgb_to_hex`
collaborator `hexOfHsl`. -/
def calculate_colors (hexOfHsl : ℚ × ℚ × ℚ → String) (raw : ℚ × ℚ × ℚ) :
    ComputedColors :=
  let base_h := raw.1 / 255
  let base_s := raw.2.1 / 255
  let base_l := raw.2.2 / 255
  let t := color_triples base_h base_s base_l
  { primary := hexOfHsl t.1
    secondary_light := hexOfHsl t.2.1
    secondary_dark := hexOfHsl t.2.2 }

/-- What the filesystem holds at one candidate experience directory.
`wideDecodes` is the external `colorgram.extract` collaborator at
`wide.jpg`: `some raw` is the dominant HSL color (channels in [0,255]),
`none` means the image cannot be decoded or read. -/
structure ExpDir where
  hasJsonConfig : Bool
  hasTomlConfig : Bool
  jsonParse : Option Config
  tomlParse : Option Config
  wideExists : Bool
  thumbExists : Bool
  wideDecodes : Option (ℚ × ℚ × ℚ)
  hasControlsSource : Bool
  hasControlsStatic : Bool
deriving DecidableEq, Repr

/-- Errors that `Experience.__init__` can surface (spec taxonomy names:
`ConfigNotFoundError` is the FileNotFoundError from `open`,
`ConfigMalformedError` covers parse failures and the KeyError for a
missing `id`/`type` field, `ImageDecodeError` is the decode failure
inside `colorgram.extract`). -/
inductive InitError where
  | configNotFound
  | configMalformed
  | imageDecode
deriving DecidableEq, Repr

/-- `Experience._load_config` (build.py lines 113-126): prefer the JSON
config, fall back to the TOML config, fail if neither exists; fail on a
parse error or on a missing `id`/`type` key. -/
def load_config (d : ExpDir) : Except InitError (Config × JsonValue × JsonValue) :=
  if d.hasJsonConfig then
    match d.jsonParse with
    | none => .error .configMalformed
    | some config =>
      match cfg_get config "id", cfg_get config "type" with
      | some i, some t => .ok (config, i, t)
      | some _, none => .error .configMalformed
      | none, _ => .error .configMalformed
  else if d.hasTomlConfig then
    match d.tomlParse with
    | none => .error .configMalformed
    | some config =>
      match cfg_get config "id", cfg_get config "type" with
      | some i, some t => .ok (config, i, t)
      | some _, none => .error .configMalformed
      | none, _ => .error .configMalformed
  else
    .error .configNotFound

/-- One registry entry (the `Experience` class, build.py lines 58-126).
`colors` is `none` when `_calculate_colors` never ran, mirroring the
dynamically absent attribute (`__main__.py` checks `hasattr`). -/
structure Experience where
  dir : ExpDir
  config : Config
  id : JsonValue
  type : JsonValue
  colors : Option ComputedColors
deriving Repr

/-- `Experience.__init__` (build.py lines 81-89): load the config, then
compute colors only when requested and both reference images exist.
A decode failure propagates (there is no handler around
`_calculate_colors`). -/
def Experience.init (hexOfHsl : ℚ × ℚ × ℚ → String) (d : ExpDir)
    (generate_colors : Bool) : Except InitError Experience :=
  match load_config d with
  | .error e => .error e
  | .ok (config, i, t) =>
    if generate_colors && d.wideExists && d.thumbExists then
      match d.wideDecodes with
      | none => .error .imageDecode
      | some raw => .ok ⟨d, config, i, t, some (calculate_colors hexOfHsl raw)⟩
    else
      .ok ⟨d, config, i, t, none⟩

/-- The `[*map(partial(Experience, ...), experience_paths)]` expression
of `WebBuilder.__init__` (build.py lines 191-193): construct the
experiences left to right, and the first raised error aborts the whole
list. -/
def build_experiences (hexOfHsl : ℚ × ℚ × ℚ → String) (generate_colors : Bool) :
    List ExpDir → Except InitError (List Experience)
  | [] => .ok []
  | d :: rest =>
    match Experience.init hexOfHsl d generate_colors with
    | .error e => .error e
    | .ok exp =>
      match build_experiences hexOfHsl generate_colors rest with
      | .error e => .error e
      | .ok exps => .ok (exp :: exps)

/-- The candidate filter of `WebBuilder.__init__` (build.py lines
184-190): keep only directories holding a recognized config file. -/
def filter_candidates (paths : List ExpDir) : List ExpDir :=
  paths.filter (fun d => d.hasJsonConfig || d.hasTomlConfig)

/-- Registry construction in `WebBuilder.__init__` (build.py lines
184-193): filter the candidates, then construct every `Experience`. -/
def build_registry (hexOfHsl : ℚ × ℚ × ℚ → String) (paths : List ExpDir)
    (generate_colors : Bool) : Except InitError (List Experience) :=
  build_experiences hexOfHsl generate_colors (filter_candidates paths)

/-- The fixed fallback import that seeds `module_imports`
(build.py line 230). -/
def fallback_import : String := "import VideoScrubber from \"../VideoScrubber\";"

/-- The f-string of build.py line 242. -/
def import_line (i : Nat) (e : Experience) : String :=
  "import Controls" ++ toString i ++ " from \"./" ++ pyStr e.id ++ "\";"

/-- The f-string of build.py line 243. -/
def map_entry_controls (i : Nat) (e : Experience) : String :=
  "[\"" ++ pyStr e.id ++ "\", Controls" ++ toString i ++ "]"

/-- The f-string of build.py line 249. -/
def map_entry_fallback (e : Experience) : String :=
  "[\"" ++ pyStr e.id ++ "\", VideoScrubber]"

/-- The elif condition of build.py lines 244-248: kind is the video
variant and the config carries `scrubbing` set to exactly the boolean
True (Python `is True`). -/
def scrubbing_video (e : Experience) : Bool :=
  e.type == .str "video" && cfg_get e.config "scrubbing" == some (.bool true)

/-- Per-iteration contribution of the build.py 237-249 loop to
`module_imports`. -/
def controls_import_for (i : Nat) (e : Experience) : Option String :=
  if e.dir.hasControlsSource then some (import_line i e) else none

/-- Per-iteration contribution of the build.py 237-249 loop to
`map_entries`. -/
def map_entry_for (i : Nat) (e : Experience) : Option String :=
  if e.dir.hasControlsSource then some (map_entry_controls i e)
  else if scrubbing_video e then some (map_entry_fallback e)
  else none

/-- The `module_imports` list after the loop of `WebBuilder._link_controls`
(build.py lines 230, 237-243). -/
def module_imports (exps : List Experience) : List String :=
  fallback_import :: exps.enum.filterMap (fun p => controls_import_for p.1 p.2)

/-- The `map_entries` list after the loop of `WebBuilder._link_controls`
(build.py lines 231, 237-249). -/
def map_entries (exps : List Experience) : List String :=
  exps.enum.filterMap (fun p => map_entry_for p.1 p.2)

/-- `_CONTROLS_INDEX_TEMPLATE` (build.py lines 42-48) applied to its two
`%s` arguments. -/
def controls_index_template (imports entries : String) : String :=
  imports ++ "\n" ++
  "const controls: Map<string, () => JSX.Element> = new Map([\n" ++
  "  " ++ entries ++ "\n" ++
  "]);\n" ++
  "export default controls;\n"

/-- The `index_content` written by `WebBuilder._link_controls`
(build.py lines 251-254). -/
def index_content (exps : List Experience) : String :=
  controls_index_template
    (String.intercalate "\n" (module_imports exps))
    (String.intercalate ",\n" (map_entries exps))

/-- Core of `fnmatch.fnmatch` on POSIX (identity `normcase`): match a
name against a pattern where `*` matches any run of characters, `?`
matches one character, and any other character matches itself.  First
argument is the pattern, second the name. -/
def fnmatch_chars : List Char → List Char → Bool
  | [], name => name.isEmpty
  | '*' :: ps, name => (name.tails).any (fun suffix => fnmatch_chars ps suffix)
  | '?' :: ps, name =>
    match name with
    | [] => false
    | _ :: ns => fnmatch_chars ps ns
  | p :: ps, name =>
    match name with
    | [] => false
    | c :: ns => p == c && fnmatch_chars ps ns

/-- `fnmatch.fnmatch(name, pattern)`. -/
def fnmatch (name pattern : String) : Bool :=
  fnmatch_chars pattern.toList name.toList

/-- `shutil.ignore_patterns(*patterns)` applied to one directory's name
listing: the names that match some pattern are ignored. -/
def ignored_names (patterns : List String) (names : List String) : List String :=
  names.filter (fun n => patterns.any (fun p => fnmatch n p))

/-- A filesystem subtree for the staging copy: plain file, symbolic
link, or directory with named children. -/
inductive FsEntry where
  | file
  | symlink (target : String)
  | dir (children : List (String × FsEntry))
deriving Repr

mutual
/-- `shutil.copytree(src, dst, symlinks=True, ignore=shutil.ignore_patterns(patterns))`
as used by `WebBuilder._copy_source_to_output_dir` (build.py lines
217-225): at each directory level the ignore callable selects the names
to skip from that directory's listing; symlinks are copied as symlinks
(`symlinks=True`); everything else is copied recursively.  The result is
the tree that appears at the destination. -/
def copy_entry (patterns : List String) : FsEntry → FsEntry
  | .file => .file
  | .symlink target => .symlink target
  | .dir children =>
    .dir (copy_children patterns
      (ignored_names patterns (children.map (fun p => p.1))) children)

/-- Children loop of `copy_entry`: skip ignored names, recurse into the
rest. -/
def copy_children (patterns : List String) (ignored : List String) :
    List (String × FsEntry) → List (String × FsEntry)
  | [] => []
  | (name, entry) :: rest =>
    if ignored.contains name then copy_children patterns ignored rest
    else (name, copy_entry patterns entry) :: copy_children patterns ignored rest
end

/-- The fallible pipeline stages of `WebBuilder.build` (build.py lines
309-315), in program order. -/
inductive Stage where
  | copySource
  | linkControls
  | yarnBuild
  | staticAssets
  | publish
deriving DecidableEq, Repr

/-- How one `build()` invocation ends: a `BuildResult`, the
FileExistsError of the precondition check (spec name
`OutputExistsError`), or a raised error at some stage. -/
inductive BuildOutcome where
  | ok
  | outputExistsError
  | stageFailed (s : Stage)
deriving DecidableEq, Repr

/-- Observable filesystem facts during one `build()` run:
whether `finished_build_path` exists, whether the disposable
`tempfile.TemporaryDirectory` currently exists, whether it was ever
created, and how many copy operations have been performed. -/
structure FsState where
  outputExists : Bool
  tempDirExists : Bool
  tempDirWasCreated : Bool
  copiesMade : Nat
deriving DecidableEq, Repr

/-- `BuildPath.__enter__` (build.py lines 152-157): in debug mode yield
the output dir untouched; otherwise allocate the disposable temporary
directory. -/
def buildpath_enter (debug : Bool) (st : FsState) : FsState :=
  if debug then st
  else { st with tempDirExists := true, tempDirWasCreated := true }

/-- `BuildPath.__exit__` (build.py lines 159-163): in debug mode do
nothing; otherwise the `TemporaryDirectory` context exit deletes the
temporary directory.  Runs on every exit path of the `with` body. -/
def buildpath_exit (debug : Bool) (st : FsState) : FsState :=
  if debug then st
  else { st with tempDirExists := false }

/-- Body of the `with` statement in `WebBuilder.build` (build.py lines
299-326): the existence precondition check, then the stages in strict
sequence, each gated on the oracle that stands for its fallible
filesystem/subprocess work.  In debug mode `self._output_path` is
`finished_build_path` itself, so the stage-2 copy (`dirs_exist_ok=True`)
creates the output path; in normal mode only the final publish copy
creates it.  `yarn build` and the publish copy are skipped in debug
mode (lines 311-315). -/
def build_body (debug : Bool) (oracle : Stage → Bool) (st : FsState) :
    BuildOutcome × FsState :=
  if st.outputExists then (.outputExistsError, st)
  else if !oracle .copySource then (.stageFailed .copySource, st)
  else
    let st1 : FsState :=
      { st with copiesMade := st.copiesMade + 1,
                outputExists := if debug then true else st.outputExists }
    if !oracle .linkControls then (.stageFailed .linkControls, st1)
    else if !debug && !oracle .yarnBuild then (.stageFailed .yarnBuild, st1)
    else if !oracle .staticAssets then (.stageFailed .staticAssets, st1)
    else
      let st2 : FsState := { st1 with copiesMade := st1.copiesMade + 1 }
      if !debug && !oracle .publish then (.stageFailed .publish, st2)
      else if debug then (.ok, st2)
      else (.ok, { st2 with copiesMade := st2.copiesMade + 1, outputExists := true })

/-- `WebBuilder.build` (build.py lines 297-326): enter the `BuildPath`
scope, run the body, and run `__exit__` whether the body returned or
raised (Python `with` semantics). -/
def build (debug : Bool) (oracle : Stage → Bool) (st : FsState) :
    BuildOutcome × FsState :=
  let st1 := buildpath_enter debug st
  let r := build_body debug oracle st1
  (r.1, buildpath_exit debug r.2)

/-- Python dict assignment `m[k] = v`: replace in place if the key
exists, append otherwise. -/
def dict_set (m : List (JsonValue × ComputedColors)) (k : JsonValue)
    (v : ComputedColors) : List (JsonValue × ComputedColors) :=
  if m.any (fun p => p.1 == k) then
    m.map (fun p => if p.1 == k then (p.1, v) else p)
  else
    m ++ [(k, v)]

/-- The `--color-output-path` loop of `__main__.py` lines 27-36: walk
the experiences, skip those without the `colors` attribute, and fill the
dict from experience id to its `ComputedColors`. -/
def color_data_loop : List Experience → List (JsonValue × ComputedColors) →
    List (JsonValue × ComputedColors)
  | [], acc => acc
  | e :: rest, acc =>
    match e.colors with
    | none => color_data_loop rest acc
    | some c => color_data_loop rest (dict_set acc e.id c)

/-- The `color_data` dict that `__main__.py` serializes to the
`--color-output-path` JSON file. -/
def color_data (exps : List Experience) : List (JsonValue × ComputedColors) :=
  color_data_loop exps []

/-- A present-but-malformed config: a config file exists at the
directory but is unparseable or lacks the required id/type field
(the condition under which `load_config` reports
`ConfigMalformedError`). -/
def config_malformed (d : ExpDir) : Bool :=
  if d.hasJsonConfig then
    match d.jsonParse with
    | none => true
    | some config => (cfg_get config "id").isNone || (cfg_get config "type").isNone
  else if d.hasTomlConfig then
    match d.tomlParse with
    | none => true
    | some config => (cfg_get config "id").isNone || (cfg_get config "type").isNone
  else false

/-- A concrete stand-in for the external HSL-to-hex conversion, used to
instantiate scenarios. -/
def hex0 : ℚ × ℚ × ℚ → String := fun _ => "#000000"

/-- Initial filesystem state in which the final output path already
exists. -/
def c1_state : FsState :=
  { outputExists := true, tempDirExists := false, tempDirWasCreated := false,
    copiesMade := 0 }

/-- A well-formed experience directory whose wide image decodes. -/
def c2_good_dir : ExpDir :=
  { hasJsonConfig := true, hasTomlConfig := false,
    jsonParse := some [("id", .str "good"), ("type", .str "interactive")],
    tomlParse := none, wideExists := true, thumbExists := true,
    wideDecodes := some (128, 230, 64), hasControlsSource := false,
    hasControlsStatic := false }

/-- A well-formed experience directory whose wide image exists but
cannot be decoded or read. -/
def c2_bad_dir : ExpDir :=
  { hasJsonConfig := true, hasTomlConfig := false,
    jsonParse := some [("id", .str "bad"), ("type", .str "video")],
    tomlParse := none, wideExists := true, thumbExists := true,
    wideDecodes := none, hasControlsSource := false, hasControlsStatic := false }

/-- A web-app source tree containing a version-control directory, a
prior-build directory, an IDE metadata directory, an ordinary source
directory and a symbolic link. -/
def c3_src_tree : FsEntry :=
  .dir [(".git", .dir [("HEAD", .file)]),
        ("build", .dir [("old.js", .file)]),
        (".idea", .dir []),
        ("src", .dir [("index.ts", .file), ("link", .symlink "target")])]

/-- Experience directory named alpha with a controls source
subdirectory. -/
def c4_alpha_dir : ExpDir :=
  { hasJsonConfig := true, hasTomlConfig := false,
    jsonParse := some [("id", .str "alpha"), ("type", .str "interactive")],
    tomlParse := none, wideExists := false, thumbExists := false,
    wideDecodes := none, hasControlsSource := true, hasControlsStatic := false }

/-- Experience directory named beta, no controls subdirectory, video
kind with scrubbing set to true. -/
def c4_beta_dir : ExpDir :=
  { hasJsonConfig := true, hasTomlConfig := false,
    jsonParse := some [("id", .str "beta"), ("type", .str "video"),
                       ("scrubbing", .bool true)],
    tomlParse := none, wideExists := false, thumbExists := false,
    wideDecodes := none, hasControlsSource := false, hasControlsStatic := false }

/-- The registry built from the alpha and beta directories, in that
order. -/
def c4_exps : List Experience :=
  match build_registry hex0 [c4_alpha_dir, c4_beta_dir] false with
  | .ok exps => exps
  | .error _ => []

/-- Experience directory with no controls subdirectory, kind video, and
a scrubbing flag that is truthy (the number 1) but not the boolean
True. -/
def c6_gamma_dir : ExpDir :=
  { hasJsonConfig := true, hasTomlConfig := false,
    jsonParse := some [("id", .str "gamma"), ("type", .str "video"),
                       ("scrubbing", .num 1)],
    tomlParse := none, wideExists := false, thumbExists := false,
    wideDecodes := none, hasControlsSource := false, hasControlsStatic := false }

/-- The experience constructed from `c6_gamma_dir`. -/
def c6_gamma : Experience :=
  match Experience.init hex0 c6_gamma_dir false with
  | .ok e => e
  | .error _ => ⟨c6_gamma_dir, [], .null, .null, none⟩

/-- Experience directory with no controls subdirectory, kind video, and
scrubbing set to exactly the boolean true. -/
def c6_delta_dir : ExpDir :=
  { hasJsonConfig := true, hasTomlConfig := false,
    jsonParse := some [("id", .str "delta"), ("type", .str "video"),
                       ("scrubbing", .bool true)],
    tomlParse := none, wideExists := false, thumbExists := false,
    wideDecodes := none, hasControlsSource := false, hasControlsStatic := false }

/-- The experience constructed from `c6_delta_dir`. -/
def c6_delta : Experience :=
  match Experience.init hex0 c6_delta_dir false with
  | .ok e => e
  | .error _ => ⟨c6_delta_dir, [], .null, .null, none⟩

/-- A candidate directory holding a config file that fails to parse. -/
def c8_bad_dir : ExpDir :=
  { hasJsonConfig := true, hasTomlConfig := false,
    jsonParse := none,
    tomlParse := none, wideExists := false, thumbExists := false,
    wideDecodes := none, hasControlsSource := false, hasControlsStatic := false }

/-- Initial debug-mode state where the output path already exists. -/
def c9_state_t : FsState :=
  { outputExists := true, tempDirExists := false, tempDirWasCreated := false,
    copiesMade := 0 }

/-- Initial debug-mode state where the output path does not exist. -/
def c9_state_f : FsState :=
  { outputExists := false, tempDirExists := false, tempDirWasCreated := false,
    copiesMade := 0 }

/-- Experience directory with a wide image but no thumbnail. -/
def c10_dir : ExpDir :=
  { hasJsonConfig := true, hasTomlConfig := false,
    jsonParse := some [("id", .str "w"), ("type", .str "interactive")],
    tomlParse := none, wideExists := true, thumbExists := false,
    wideDecodes := none, hasControlsSource := false, hasControlsStatic := false }

/-- The experience constructed from `c10_dir` with colors requested:
the thumbnail is missing, so no colors are computed. -/
def c10_e : Experience :=
  match Experience.init hex0 c10_dir true with
  | .ok e => e
  | .error _ => ⟨c10_dir, [], .null, .null, none⟩

/-- A concrete computed color triple. -/
def c10_cc : ComputedColors := ⟨"#111111", "#222222", "#333333"⟩

/-- An experience that carries computed colors. -/
def c10_e2 : Experience :=
  ⟨c10_dir, [("id", .str "z"), ("type", .str "video")], .str "z", .str "video",
   some c10_cc⟩

/-- Helper: evaluate `fmod1` once the integer part is known. -/
theorem fmod1_eq_sub (x : ℚ) (n : ℤ) (h1 : (n : ℚ) ≤ x) (h2 : x < n + 1) :
    fmod1 x = x - n := by
  unfold fmod1
  rw [Int.floor_eq_iff.mpr ⟨h1, by exact_mod_cast h2⟩]

/-- Helper: if some member of the candidate list fails to construct,
the whole left-to-right construction fails (no partial list). -/
theorem build_experiences_error_of_mem (hexOfHsl : ℚ × ℚ × ℚ → String)
    (gc : Bool) (l : List ExpDir) (d : ExpDir) (hd : d ∈ l)
    (herr : ∃ err, Experience.init hexOfHsl d gc = .error err) :
    ∃ e, build_experiences hexOfHsl gc l = .error e := by
  induction l with
  | nil => cases hd
  | cons a rest ih =>
    cases hinit : Experience.init hexOfHsl a gc with
    | error e => exact ⟨e, by simp [build_experiences, hinit]⟩
    | ok v =>
      rcases List.mem_cons.mp hd with rfl | hmem
      · obtain ⟨err, herr⟩ := herr
        rw [hinit] at herr
        cases herr
      · obtain ⟨e, he⟩ := ih hmem
        exact ⟨e, by simp [build_experiences, hinit, he]⟩

/-- Helper: a present-but-malformed config makes `load_config` fail with
`ConfigMalformedError`. -/
theorem load_config_error_of_malformed (d : ExpDir)
    (h : config_malformed d = true) :
    load_config d = .error .configMalformed := by
  unfold config_malformed at h
  unfold load_config
  cases hj : d.hasJsonConfig <;> cases ht : d.hasTomlConfig <;>
    simp [hj, ht] at h ⊢ <;>
  · first
    | (cases hp : d.jsonParse with
       | none => simp
       | some config =>
          simp [hp] at h
          rcases h with h | h <;>
            cases hid : cfg_get config "id" <;>
              cases hty : cfg_get config "type" <;>
                simp_all)
    | (cases hp : d.tomlParse with
       | none => simp
       | some config =>
          simp [hp] at h
          rcases h with h | h <;>
            cases hid : cfg_get config "id" <;>
              cases hty : cfg_get config "type" <;>
                simp_all)

/-- Helper: a directory with a malformed config in particular holds a
recognized config file, so it survives the candidate filter. -/
theorem present_of_malformed (d : ExpDir) (h : config_malformed d = true) :
    (d.hasJsonConfig || d.hasTomlConfig) = true := by
  unfold config_malformed at h
  cases hj : d.hasJsonConfig <;> cases ht : d.hasTomlConfig <;> simp_all

/-- Helper: Python dict assignment on a fresh key appends. -/
theorem dict_set_not_mem (m : List (JsonValue × ComputedColors))
    (k : JsonValue) (v : ComputedColors) (h : k ∉ m.map Prod.fst) :
    dict_set m k v = m ++ [(k, v)] := by
  unfold dict_set
  rw [if_neg]
  intro hany
  rw [List.any_eq_true] at hany
  obtain ⟨p, hp, hpk⟩ := hany
  exact h (List.mem_map.mpr ⟨p, hp, (beq_iff_eq.mp hpk)⟩)

/-- Helper: closed form of the `--color-output-path` loop when ids are
unique: the dict is the ordered list of (id, colors) pairs of the
experiences that carry colors. -/
theorem color_data_loop_closed (exps : List Experience)
    (acc : List (JsonValue × ComputedColors))
    (hnd : (exps.map (fun e => e.id)).Nodup)
    (hdisj : ∀ e ∈ exps, e.id ∉ acc.map Prod.fst) :
    color_data_loop exps acc =
      acc ++ exps.filterMap (fun e => e.colors.map (fun c => (e.id, c))) := by
  induction exps generalizing acc with
  | nil => simp [color_data_loop]
  | cons e rest ih =>
    have hnd' : (rest.map (fun e => e.id)).Nodup := (List.nodup_cons.mp hnd).2
    cases hc : e.colors with
    | none =>
      simp only [color_data_loop, hc]
      rw [ih acc hnd' (fun e' he' => hdisj e' (List.mem_cons_of_mem _ he'))]
      simp [hc]
    | some c =>
      simp only [color_data_loop, hc]
      rw [dict_set_not_mem acc e.id c (hdisj e (List.mem_cons_self e rest))]
      rw [ih (acc ++ [(e.id, c)]) hnd' ?_]
      · simp [hc]
      · intro e' he'
        simp only [List.map_append, List.mem_append]
        rintro (hin | hin)
        · exact hdisj e' (List.mem_cons_of_mem _ he') hin
        · simp at hin
          exact (List.nodup_cons.mp hnd).1 (List.mem_map.mpr ⟨e', he', hin⟩)

/-- Helper: the first components of the color dict entries are the ids
of the experiences whose colors are present. -/
theorem map_fst_filterMap_colors (exps : List Experience) :
    (exps.filterMap (fun e => e.colors.map (fun c => (e.id, c)))).map Prod.fst =
      (exps.filter (fun e => e.colors.isSome)).map (fun e => e.id) := by
  induction exps with
  | nil => rfl
  | cons e rest ih =>
    cases hc : e.colors <;> simp [hc, ih]

/-- C1 counterexample: with the final output path already existing (and
every stage otherwise able to succeed), a non-debug build does fail with
the output-exists error, but the disposable staging directory IS created
— `BuildPath.__enter__` allocates the `TemporaryDirectory` before the
body's existence check runs — refuting the claim's "the disposable
staging directory is never created". -/
theorem c1_counterexample :
    (build false (fun _ => true) c1_state).1 = .outputExistsError ∧
    (build false (fun _ => true) c1_state).2.tempDirWasCreated = true :=
  ⟨rfl, rfl⟩

/-- C1 (amended): for every build invocation where the final output
path already exists, non-debug build() fails with OutputExistsError, no
file copies are performed, and although the staging directory is created
on workspace entry, it is removed again by the time build() returns. -/
theorem c1_theorem (oracle : Stage → Bool) (st : FsState)
    (h : st.outputExists = true) :
    (build false oracle st).1 = .outputExistsError ∧
    (build false oracle st).2.copiesMade = st.copiesMade ∧
    (build false oracle st).2.tempDirExists = false := by
  simp [build, build_body, buildpath_enter, buildpath_exit, h]

/-- C1 witness: the amended theorem at a concrete state whose output
path exists, with an all-succeeding stage oracle. -/
theorem c1_witness :
    (build false (fun _ => true) c1_state).1 = .outputExistsError ∧
    (build false (fun _ => true) c1_state).2.copiesMade = c1_state.copiesMade ∧
    (build false (fun _ => true) c1_state).2.tempDirExists = false :=
  c1_theorem (fun _ => true) c1_state rfl

/-- C2 counterexample: a registry with one well-formed experience and
one whose wide image cannot be decoded (colors requested, both
reference images present) aborts entirely with ImageDecodeError —
refuting the claim that registry construction continues with the
experience kept, colorless, and the others unaffected. -/
theorem c2_counterexample :
    build_registry hex0 [c2_good_dir, c2_bad_dir] true = .error .imageDecode :=
  rfl

/-- C2 (amended): for every experience whose colors were requested and
whose reference images exist, if the wide image cannot be decoded or
read, `Experience.__init__` fails with ImageDecodeError and the error
propagates: registry construction aborts with an error and the
experience does not remain in the registry (there is no registry at
all). -/
theorem c2_theorem (hexOfHsl : ℚ × ℚ × ℚ → String) (cands : List ExpDir)
    (d : ExpDir) (hmem : d ∈ cands) (hcfg : ∃ v, load_config d = .ok v)
    (hwide : d.wideExists = true) (hthumb : d.thumbExists = true)
    (hdec : d.wideDecodes = none) :
    Experience.init hexOfHsl d true = .error .imageDecode ∧
    ∃ e, build_registry hexOfHsl cands true = .error e := by
  obtain ⟨⟨config, i, t⟩, hv⟩ := hcfg
  have hinit : Experience.init hexOfHsl d true = .error .imageDecode := by
    simp [Experience.init, hv, hwide, hthumb, hdec]
  refine ⟨hinit, ?_⟩
  have hpresent : (d.hasJsonConfig || d.hasTomlConfig) = true := by
    by_contra hnp
    simp [Bool.or_eq_true, not_or] at hnp
    simp [load_config, hnp.1, hnp.2] at hv
  exact build_experiences_error_of_mem hexOfHsl true _ d
    (List.mem_filter.mpr ⟨hmem, hpresent⟩) ⟨.imageDecode, hinit⟩

/-- C2 witness: the amended theorem at the concrete undecodable
directory inside a two-candidate registry. -/
theorem c2_witness :
    Experience.init hex0 c2_bad_dir true = .error .imageDecode ∧
    ∃ e, build_registry hex0 [c2_good_dir, c2_bad_dir] true = .error e :=
  c2_theorem hex0 [c2_good_dir, c2_bad_dir] c2_bad_dir
    (List.mem_cons_of_mem _ (List.mem_singleton.mpr rfl))
    ⟨([("id", .str "bad"), ("type", .str "video")], .str "bad", .str "video"),
     rfl⟩
    rfl rfl rfl

/-- C3 (code bug): the staging copy's ignore patterns ".git/", "build/"
and ".idea/" carry trailing slashes, but `shutil.ignore_patterns` fnmatches
them against bare directory names, which never contain a slash — so no
name ever matches, nothing is excluded, and the copied workspace equals
the full source tree, .git, build and .idea included.  The spec's
excluding behavior is clearly what the patterns intend; the trailing
slashes defeat it. -/
theorem c3_theorem :
    copy_entry [".git/", "build/", ".idea/"] c3_src_tree = c3_src_tree ∧
    fnmatch ".git" ".git/" = false ∧
    fnmatch "build" "build/" = false ∧
    fnmatch ".idea" ".idea/" = false :=
  ⟨rfl, rfl, rfl, rfl⟩

/-- C4: for the registry [alpha (with controls), beta (no controls,
video kind, scrubbing true)], the generated module's import list is
exactly the fixed fallback import (first) plus the alpha import aliased
Controls0 (alpha's position is 0), the map entries are exactly the alpha
entry using Controls0 and the beta entry paired with VideoScrubber, no
generated import line mentions beta, and the full index content is the
template instantiated with those lines. -/
theorem c4_theorem :
    module_imports c4_exps =
      [fallback_import, "import Controls0 from \"./alpha\";"] ∧
    map_entries c4_exps =
      ["[\"alpha\", Controls0]", "[\"beta\", VideoScrubber]"] ∧
    (module_imports c4_exps).head? = some fallback_import ∧
    index_content c4_exps =
      "import VideoScrubber from \"../VideoScrubber\";\nimport Controls0 from \"./alpha\";\nconst controls: Map<string, () => JSX.Element> = new Map([\n  [\"alpha\", Controls0],\n[\"beta\", VideoScrubber]\n]);\nexport default controls;\n" :=
  ⟨rfl, rfl, rfl, rfl⟩

/-- C5: the three derived HSL triples obey the claimed arithmetic —
primary is (h, min(s,0.74), 0.35), secondary-light is
(h+0.18 mod 1, min(min(s,0.74)*1.5, 0.9), 0.94), secondary-dark is
(h+0.1 mod 1, max(min(s,0.74)-0.15, 0), 0.45) — and in particular base
saturation 0.9 yields saturations 0.74, 0.59 and 0.9, and base hue 0.95
wraps to derived hues 0.05 and 0.13. -/
theorem c5_theorem :
    (∀ h s l : ℚ,
      color_triples h s l =
        ((h, min s 0.74, 0.35),
         (fmod1 (h + 0.18), min (min s 0.74 * 1.5) 0.9, 0.94),
         (fmod1 (h + 0.1), max (min s 0.74 - 0.15) 0, 0.45))) ∧
    (∀ h l : ℚ,
      (color_triples h 0.9 l).1.2.1 = 0.74 ∧
      (color_triples h 0.9 l).2.2.2.1 = 0.59 ∧
      (color_triples h 0.9 l).2.1.2.1 = 0.9) ∧
    (∀ s l : ℚ,
      (color_triples 0.95 s l).2.2.1 = 0.05 ∧
      (color_triples 0.95 s l).2.1.1 = 0.13) := by
  refine ⟨fun h s l => ?_, fun h l => ?_, fun s l => ?_⟩
  · simp only [color_triples]
    rw [min_assoc, min_self]
    norm_num
  · simp only [color_triples]
    norm_num [min_def, max_def]
  · simp only [color_triples]
    rw [fmod1_eq_sub ((0.95 : ℚ) + 0.1) 1 (by norm_num) (by norm_num),
        fmod1_eq_sub ((0.95 : ℚ) + 0.18) 1 (by norm_num) (by norm_num)]
    norm_num

/-- C6 counterexample: an experience with no controls subdirectory,
video kind, and an explicit truthy scrubbing flag (the number 1, which
is truthy in Python but is not the boolean True) receives NO map entry —
refuting the claim's "if and only if ... explicit truthy scrubbing
flag". -/
theorem c6_counterexample :
    c6_gamma.dir.hasControlsSource = false ∧
    c6_gamma.type = .str "video" ∧
    (∃ v, cfg_get c6_gamma.config "scrubbing" = some v ∧ truthy v = true) ∧
    map_entry_for 0 c6_gamma = none ∧
    map_entries [c6_gamma] = [] :=
  ⟨rfl, rfl, ⟨.num 1, rfl, rfl⟩, rfl, rfl⟩

/-- C6 (amended): for every experience without a controls source
subdirectory, the loop's map-entry contribution is the fallback entry
for its id iff its kind is the video variant and its config carries
"scrubbing" set to exactly the boolean true (Python `is True`, stricter
than truthiness); otherwise it contributes no map entry at all. -/
theorem c6_theorem (i : Nat) (e : Experience)
    (h : e.dir.hasControlsSource = false) :
    (map_entry_for i e = some (map_entry_fallback e) ↔
      (e.type = .str "video" ∧ cfg_get e.config "scrubbing" = some (.bool true))) ∧
    (¬(e.type = .str "video" ∧ cfg_get e.config "scrubbing" = some (.bool true)) →
      map_entry_for i e = none) := by
  have hsv : scrubbing_video e = true ↔
      (e.type = .str "video" ∧ cfg_get e.config "scrubbing" = some (.bool true)) := by
    simp [scrubbing_video]
  cases hb : scrubbing_video e <;>
    simp [map_entry_for, h, hb, ← hsv]

/-- C6 witness: the amended theorem at the exactly-true experience (gets
the fallback entry) and at the truthy-but-not-True experience (gets
none). -/
theorem c6_witness :
    map_entry_for 0 c6_delta = some (map_entry_fallback c6_delta) ∧
    map_entry_for 0 c6_gamma = none :=
  ⟨(c6_theorem 0 c6_delta rfl).1.mpr ⟨rfl, rfl⟩,
   (c6_theorem 0 c6_gamma rfl).2 (fun hcontra => by
      have hsc := hcontra.2
      simp [c6_gamma, Experience.init, c6_gamma_dir, load_config, cfg_get]
        at hsc)⟩

/-- C7: in non-debug mode, whatever the initial filesystem state and
whichever stage succeeds or fails (including none), after build()
returns the disposable temporary workspace directory no longer exists:
`BuildPath.__exit__` deletes it on every exit path. -/
theorem c7_theorem (oracle : Stage → Bool) (st : FsState) :
    (build false oracle st).2.tempDirExists = false := rfl

/-- C8: for every candidate list containing a directory with a
present-but-malformed config file (unparseable, or missing the required
id or type field), registry construction aborts entirely with an error
and returns no partial list of experiences. -/
theorem c8_theorem (hexOfHsl : ℚ × ℚ × ℚ → String) (cands : List ExpDir)
    (gc : Bool) (d : ExpDir) (hmem : d ∈ cands)
    (hmal : config_malformed d = true) :
    ∃ e, build_registry hexOfHsl cands gc = .error e := by
  have hload := load_config_error_of_malformed d hmal
  have hinit : Experience.init hexOfHsl d gc = .error .configMalformed := by
    simp [Experience.init, hload]
  exact build_experiences_error_of_mem hexOfHsl gc _ d
    (List.mem_filter.mpr ⟨hmem, present_of_malformed d hmal⟩)
    ⟨.configMalformed, hinit⟩

/-- C8 witness: the theorem at a concrete candidate whose config file
exists but fails to parse. -/
theorem c8_witness :
    ∃ e, build_registry hex0 [c8_bad_dir] true = .error e :=
  c8_theorem hex0 [c8_bad_dir] true c8_bad_dir (List.mem_singleton.mpr rfl) rfl

/-- C9: in debug mode the output-path existence check still runs: if the
output path exists, build() fails with the output-exists error; a run
that returns a BuildResult therefore started with the path absent; and
it is the stage-2 staging copy (success or failure of the copySource
stage) that determines whether the output path exists afterwards —
the copy creates it. -/
theorem c9_theorem (oracle : Stage → Bool) (st : FsState) :
    (st.outputExists = true → (build true oracle st).1 = .outputExistsError) ∧
    ((build true oracle st).1 = .ok → st.outputExists = false) ∧
    (st.outputExists = false → oracle .copySource = true →
      (build true oracle st).2.outputExists = true) ∧
    (st.outputExists = false → oracle .copySource = false →
      (build true oracle st).2.outputExists = false) := by
  cases h : st.outputExists <;>
    cases hc : oracle .copySource <;>
      cases hl : oracle .linkControls <;>
        cases ha : oracle .staticAssets <;>
          simp [build, build_body, buildpath_enter, buildpath_exit, h, hc, hl, ha]

/-- C9 witness: the theorem at concrete debug-mode states — existing
output path (fails with the exists error), absent output path with the
copy succeeding (path exists afterwards), and absent output path with
the copy failing (path still absent). -/
theorem c9_witness :
    (build true (fun _ => true) c9_state_t).1 = .outputExistsError ∧
    c9_state_f.outputExists = false ∧
    (build true (fun _ => true) c9_state_f).2.outputExists = true ∧
    (build true (fun _ => false) c9_state_f).2.outputExists = false :=
  ⟨(c9_theorem (fun _ => true) c9_state_t).1 rfl,
   (c9_theorem (fun _ => true) c9_state_f).2.1 rfl,
   (c9_theorem (fun _ => true) c9_state_f).2.2.1 rfl rfl,
   (c9_theorem (fun _ => false) c9_state_f).2.2.2 rfl rfl⟩

/-- C10: for every successfully constructed Experience, the colors field
is present (a some, mirroring the attribute existing) iff color
generation was requested and both reference images existed at
construction; and, for unique ids, the `--color-output-path` dict maps
exactly the ids of the experiences whose colors are present to their
ComputedColors (the three hex color strings). -/
theorem c10_theorem :
    (∀ (hexOfHsl : ℚ × ℚ × ℚ → String) (d : ExpDir) (gc : Bool) (e : Experience),
      Experience.init hexOfHsl d gc = .ok e →
      e.colors.isSome = (gc && d.wideExists && d.thumbExists)) ∧
    (∀ exps : List Experience, (exps.map (fun e => e.id)).Nodup →
      ((color_data exps).map Prod.fst =
        (exps.filter (fun e => e.colors.isSome)).map (fun e => e.id)) ∧
      (∀ e c, e ∈ exps → e.colors = some c → (e.id, c) ∈ color_data exps)) := by
  constructor
  · intro hexOfHsl d gc e hinit
    cases hload : load_config d with
    | error err => simp [Experience.init, hload] at hinit
    | ok v =>
      obtain ⟨config, i, t⟩ := v
      simp only [Experience.init, hload] at hinit
      by_cases hcond : (gc && d.wideExists && d.thumbExists) = true
      · rw [if_pos hcond] at hinit
        cases hdec : d.wideDecodes with
        | none =>
          rw [hdec] at hinit
          exact Except.noConfusion hinit
        | some raw =>
          simp only [hdec] at hinit
          cases hinit
          simp [hcond]
      · rw [if_neg hcond] at hinit
        cases hinit
        simp only [Bool.not_eq_true] at hcond
        simp [hcond]
  · intro exps hnd
    have hclosed := color_data_loop_closed exps [] hnd (by simp)
    unfold color_data
    rw [hclosed]
    constructor
    · simpa using map_fst_filterMap_colors exps
    · intro e c he hc
      simp only [List.nil_append]
      exact List.mem_filterMap.mpr ⟨e, he, by rw [hc]; rfl⟩

/-- C10 witness: the first part at a concrete construction with a
missing thumbnail (colors absent), and the second part at a concrete
one-experience list carrying colors. -/
theorem c10_witness :
    c10_e.colors.isSome = (true && c10_dir.wideExists && c10_dir.thumbExists) ∧
    ((color_data [c10_e2]).map Prod.fst =
      ([c10_e2].filter (fun e => e.colors.isSome)).map (fun e => e.id)) ∧
    (c10_e2.id, c10_cc) ∈ color_data [c10_e2] :=
  ⟨c10_theorem.1 hex0 c10_dir true c10_e rfl,
   (c10_theorem.2 [c10_e2] (by simp)).1,
   (c10_theorem.2 [c10_e2] (by simp)).2 c10_e2 c10_cc
     (List.mem_singleton.mpr rfl) rfl⟩

end Footron
